import Mathlib

set_option maxHeartbeats 1000000

/-!
Shallow embedding of the TCP reply engine of masscanned
(file src/layer_4/tcp.rs, function repl), together with proofs of the
specification claims about it.

The engine is embedded as a pure Lean function.  The two external
collaborators that the source calls — the handshake token service
(synackcookie::generate) and the upper-layer dispatcher (proto::repl) —
live outside the embedded file, so repl is parametrized over them; the
dispatcher is given the connection identity record and returns both its
optional reply bytes and the (possibly mutated) record, mirroring the
&mut borrow in the source.  Machine integers are modelled as Nat with
explicit reduction modulo 2^32 where the source performs wrapping u32
arithmetic.
-/

/-- Modulus of 32-bit unsigned arithmetic. -/
def U32 : Nat := 4294967296

/- TCP flag bits, with the numeric values of pnet::packet::tcp::TcpFlags. -/
namespace TcpFlags

def FIN : Nat := 1

def SYN : Nat := 2

def RST : Nat := 4

def PSH : Nat := 8

def ACK : Nat := 16

def URG : Nat := 32

end TcpFlags

/-- A TCP segment: the header fields repl reads or writes, plus the payload.
Mirrors the view pnet's TcpPacket / MutableTcpPacket give of the buffer. -/
structure TcpPacket where
  source : Nat
  destination : Nat
  sequence : Nat
  acknowledgement : Nat
  data_offset : Nat
  flags : Nat
  window : Nat
  payload : List Nat
deriving DecidableEq, Repr

/-- A source/destination pair of optional values (crate::client::ClientInfoSrcDst). -/
structure ClientInfoSrcDst (α : Type) where
  src : Option α
  dst : Option α
deriving DecidableEq, Repr

/-- The per-packet connection identity record (crate::client::ClientInfo).
Link and network addresses are opaque to the TCP layer, so they are
modelled as Nat. -/
structure ClientInfo where
  mac : ClientInfoSrcDst Nat
  ip : ClientInfoSrcDst Nat
  transport : Option Nat
  port : ClientInfoSrcDst Nat
  cookie : Option Nat
deriving DecidableEq, Repr

/-- The process-wide responder identity (crate::Masscanned).  Only
synack_key is read by repl; the other fields are opaque. -/
structure Masscanned where
  mac : Nat
  ip_addresses : Option (List Nat)
  synack_key : Nat × Nat
  iface : Option Nat
deriving DecidableEq, Repr

/-- Modelled from the spec: the source aborts via panic (Result::unwrap on a
failed token generation, Option::unwrap on an absent port) and the spec
states such a failure must abort only the current packet's processing, not
the process; the caller that contains the panic is outside the embedded
file.  A panic is therefore modelled as an error value returned for the
one offending packet. -/
inductive Panic where
  | cookieUnwrap
  | portUnwrap
deriving DecidableEq, Repr

/-- The type of the handshake token service, synackcookie::generate:
a token (u32) or a failure, deterministically from the connection identity
record and the secret key. -/
def GenFun : Type := ClientInfo → Nat × Nat → Except Unit Nat

/-- The type of the upper-layer dispatcher, proto::repl: from the payload,
the responder identity and the (mutably borrowed) connection identity
record, optional response bytes together with the record as the dispatcher
leaves it. -/
def ProtoFun : Type := List Nat → Masscanned → ClientInfo → Option (List Nat) × ClientInfo

/-- Lines 36-37 of the source: overwrite the record's ports with the inbound
segment's source and destination ports. -/
def updatePorts (ci : ClientInfo) (t : TcpPacket) : ClientInfo :=
  { ci with port := { src := some t.source, dst := some t.destination } }

/-- Lines 44-49 of the source: the sequence value the client should be
acknowledging: inbound acknowledgement minus one, with explicit wraparound
to 0xFFFFFFFF when the inbound acknowledgement is 0. -/
def expectedAckno (t : TcpPacket) : Nat :=
  if t.acknowledgement > 0 then t.acknowledgement - 1 else 0xFFFFFFFF

/-- A response packet freshly built over a zeroed minimum-size buffer
(MutableTcpPacket::owned of a zero vector), optionally concatenated with
payload bytes. -/
def newTcp (payload : List Nat) : TcpPacket :=
  { source := 0, destination := 0, sequence := 0, acknowledgement := 0,
    data_offset := 0, flags := 0, window := 0, payload := payload }

/-- Lines 103-111 of the source: finalization of every produced response.
Source port := record's destination port, destination port := record's
source port (both unwrapped, panicking when absent), data offset := 5,
window := 65535. -/
def finalize (ci : ClientInfo) (t : TcpPacket) :
    Except Panic (Option TcpPacket × ClientInfo) :=
  match ci.port.dst, ci.port.src with
  | some d, some s =>
      .ok (some { t with source := d, destination := s,
                         data_offset := 5, window := 65535 }, ci)
  | _, _ => .error Panic.portUnwrap

/-- The body of repl after the ports of the record have been overwritten
(lines 39-111 of the source): flag classification, token handling,
response assembly. -/
def replCore (generate : GenFun) (proto : ProtoFun)
    (tcp_req : TcpPacket) (masscanned : Masscanned) (ci : ClientInfo) :
    Except Panic (Option TcpPacket × ClientInfo) :=
  if tcp_req.flags &&& (TcpFlags.PSH ||| TcpFlags.ACK)
      = TcpFlags.PSH ||| TcpFlags.ACK then
    -- data branch, lines 42-75
    let ackno := expectedAckno tcp_req
    let verdict : Option ClientInfo :=
      match generate ci masscanned.synack_key with
      | .ok cookie =>
          if cookie ≠ ackno then none else some { ci with cookie := some cookie }
      | .error _ => some ci
    match verdict with
    | none => .ok (none, ci)
    | some ci2 =>
        let payload := tcp_req.payload
        match proto payload masscanned ci2 with
        | (some r, ci3) =>
            let t1 := { newTcp r with flags := TcpFlags.ACK ||| TcpFlags.PSH }
            finalize ci3 { t1 with
              acknowledgement :=
                (tcp_req.sequence + tcp_req.payload.length) % U32,
              sequence := tcp_req.acknowledgement }
        | (none, ci3) =>
            let t1 := { newTcp [] with flags := TcpFlags.ACK }
            finalize ci3 { t1 with
              acknowledgement :=
                (tcp_req.sequence + tcp_req.payload.length) % U32,
              sequence := tcp_req.acknowledgement }
  else if tcp_req.flags = TcpFlags.ACK then
    -- pure ACK, lines 77-80
    .ok (none, ci)
  else if tcp_req.flags = TcpFlags.RST
      ∨ tcp_req.flags = TcpFlags.FIN ||| TcpFlags.ACK then
    -- exact RST, exact FIN+ACK, lines 82-84
    .ok (none, ci)
  else if tcp_req.flags &&& TcpFlags.SYN = TcpFlags.SYN then
    -- handshake branch, lines 86-97
    let t1 := { newTcp [] with flags := TcpFlags.ACK }
    let t2 := { t1 with flags := TcpFlags.SYN ||| TcpFlags.ACK }
    let t3 := { t2 with acknowledgement := (tcp_req.sequence + 1) % U32 }
    match generate ci masscanned.synack_key with
    | .ok cookie => finalize ci { t3 with sequence := cookie }
    | .error _ => .error Panic.cookieUnwrap
  else
    -- unhandled flags, lines 98-101
    .ok (none, ci)

/-- The TCP reply engine, repl of src/layer_4/tcp.rs: first the record's
ports are overwritten from the inbound segment (lines 36-37), then the
flag-classified body runs. -/
def repl (generate : GenFun) (proto : ProtoFun)
    (tcp_req : TcpPacket) (masscanned : Masscanned) (client_info : ClientInfo) :
    Except Panic (Option TcpPacket × ClientInfo) :=
  replCore generate proto tcp_req masscanned (updatePorts client_info tcp_req)

/-! Concrete instances used to evaluate the engine on closed inputs. -/

/-- A token service that always mints the token 1000. -/
def cGen : GenFun := fun _ _ => .ok 1000

/-- A token service that always fails. -/
def cGenErr : GenFun := fun _ _ => .error ()

/-- A dispatcher that never answers and leaves the record alone. -/
def cProtoNone : ProtoFun := fun _ _ ci => (none, ci)

/-- A dispatcher that echoes the payload and leaves the record alone. -/
def cProtoEcho : ProtoFun := fun p _ ci => (some p, ci)

/-- A concrete responder identity. -/
def cMass : Masscanned :=
  { mac := 0, ip_addresses := none, synack_key := (11, 22), iface := none }

/-- A concrete connection identity record as it reaches the TCP layer:
network addresses present, ports not yet filled. -/
def cCI : ClientInfo :=
  { mac := { src := none, dst := none },
    ip := { src := some 5, dst := some 6 },
    transport := some 6,
    port := { src := none, dst := none },
    cookie := none }

/-- The same record with a different port history. -/
def cCIports : ClientInfo :=
  { cCI with port := { src := some 9, dst := some 1234 } }

/-- A concrete inbound segment with only SYN set. -/
def cReqSyn : TcpPacket :=
  { source := 65000, destination := 80, sequence := 500, acknowledgement := 0,
    data_offset := 5, flags := TcpFlags.SYN, window := 1024, payload := [] }

/-- A concrete inbound PSH+ACK segment acknowledging token 1000 + 1. -/
def cReqData : TcpPacket :=
  { source := 65000, destination := 80, sequence := 500, acknowledgement := 1001,
    data_offset := 5, flags := TcpFlags.PSH ||| TcpFlags.ACK, window := 1024,
    payload := [7, 8] }

/-- The same segment acknowledging 1000 instead (token, not token + 1). -/
def cReqDataRej : TcpPacket :=
  { cReqData with acknowledgement := 1000 }

/-- A concrete inbound segment with RST and SYN both set. -/
def cReqRstSyn : TcpPacket :=
  { source := 65000, destination := 80, sequence := 7, acknowledgement := 9,
    data_offset := 5, flags := TcpFlags.RST ||| TcpFlags.SYN, window := 1024,
    payload := [] }

/-! Theorems settling the claims. -/

/-- C1: for every inbound segment whose flags have SYN set and that matched
no earlier branch (PSH+ACK not both set, flags not exactly ACK, not exactly
RST, not exactly FIN+ACK), repl returns some outbound segment whose flags
are exactly SYN+ACK, whose acknowledgement number is the inbound sequence
number + 1 modulo 2^32, and whose sequence number is the token minted by
generate on the (port-updated) connection identity record and secret key. -/
theorem repl_handshake_synack (generate : GenFun) (proto : ProtoFun)
    (tcp_req : TcpPacket) (m : Masscanned) (ci : ClientInfo) (tok : Nat)
    (h1 : tcp_req.flags &&& (TcpFlags.PSH ||| TcpFlags.ACK)
      ≠ TcpFlags.PSH ||| TcpFlags.ACK)
    (h2 : tcp_req.flags ≠ TcpFlags.ACK)
    (h3 : ¬(tcp_req.flags = TcpFlags.RST
      ∨ tcp_req.flags = TcpFlags.FIN ||| TcpFlags.ACK))
    (h4 : tcp_req.flags &&& TcpFlags.SYN = TcpFlags.SYN)
    (hg : generate (updatePorts ci tcp_req) m.synack_key = .ok tok) :
    ∃ out ciOut, repl generate proto tcp_req m ci = .ok (some out, ciOut) ∧
      out.flags = TcpFlags.SYN ||| TcpFlags.ACK ∧
      out.acknowledgement = (tcp_req.sequence + 1) % U32 ∧
      out.sequence = tok := by
  unfold repl replCore
  rw [if_neg h1, if_neg h2, if_neg h3, if_pos h4, hg]
  exact ⟨_, _, rfl, rfl, rfl, rfl⟩

/-- Witness for C1: the handshake theorem applied to a concrete SYN segment. -/
theorem repl_handshake_synack_witness :
    ∃ out ciOut, repl cGen cProtoNone cReqSyn cMass cCI = .ok (some out, ciOut) ∧
      out.flags = TcpFlags.SYN ||| TcpFlags.ACK ∧
      out.acknowledgement = (cReqSyn.sequence + 1) % U32 ∧
      out.sequence = 1000 :=
  repl_handshake_synack cGen cProtoNone cReqSyn cMass cCI 1000
    (by decide) (by decide) (by decide) (by decide) (by rfl)

/-- C3: for every inbound PSH+ACK segment, when the recomputed token differs
from the expected acknowledged value, repl returns a value that is ok
(no error surfaced) and carries no outbound segment; the record keeps its
ports updated and nothing else. -/
theorem repl_data_reject (generate : GenFun) (proto : ProtoFun)
    (tcp_req : TcpPacket) (m : Masscanned) (ci : ClientInfo) (cookie : Nat)
    (hflags : tcp_req.flags &&& (TcpFlags.PSH ||| TcpFlags.ACK)
      = TcpFlags.PSH ||| TcpFlags.ACK)
    (hg : generate (updatePorts ci tcp_req) m.synack_key = .ok cookie)
    (hne : cookie ≠ expectedAckno tcp_req) :
    repl generate proto tcp_req m ci = .ok (none, updatePorts ci tcp_req) := by
  unfold repl replCore
  rw [if_pos hflags]
  simp only [hg, if_pos hne]

/-- Witness for C3: a concrete PSH+ACK segment acknowledging the token
itself instead of token + 1 is silently dropped. -/
theorem repl_data_reject_witness :
    repl cGen cProtoEcho cReqDataRej cMass cCI
      = .ok (none, updatePorts cCI cReqDataRej) :=
  repl_data_reject cGen cProtoEcho cReqDataRej cMass cCI 1000
    (by decide) (by rfl) (by decide)

/-- C4: in the value the data branch compares the token against, an inbound
acknowledgement of 0 yields 0xFFFFFFFF, a positive inbound acknowledgement
yields acknowledgement - 1; the result is always a value below 2^32 (no
fault, no negative) and agrees with subtraction of 1 modulo 2^32. -/
theorem expectedAckno_wraparound (t : TcpPacket) (h : t.acknowledgement < U32) :
    (t.acknowledgement = 0 → expectedAckno t = 0xFFFFFFFF) ∧
    (0 < t.acknowledgement → expectedAckno t = t.acknowledgement - 1) ∧
    expectedAckno t < U32 ∧
    expectedAckno t = (t.acknowledgement + 0xFFFFFFFF) % U32 := by
  unfold expectedAckno
  simp only [U32] at h ⊢
  split_ifs with hpos <;> omega

/-- Witness for C4: the wraparound theorem applied to an acknowledgement of 0. -/
theorem expectedAckno_wraparound_witness :
    cReqSyn.acknowledgement < U32 ∧ expectedAckno cReqSyn = 0xFFFFFFFF :=
  ⟨by decide, (expectedAckno_wraparound cReqSyn (by decide)).1 (by decide)⟩

/-- C8: repl is a pure function of the inbound bytes, the responder identity
and the record content after the port overwrite: any two invocations whose
records agree once the inbound ports are written (in particular two
invocations with identical records) give identical results, whatever the
token service and dispatcher, so replays behave identically. -/
theorem repl_deterministic (generate : GenFun) (proto : ProtoFun)
    (tcp_req : TcpPacket) (m : Masscanned) (ci ci' : ClientInfo)
    (h : updatePorts ci tcp_req = updatePorts ci' tcp_req) :
    repl generate proto tcp_req m ci = repl generate proto tcp_req m ci' := by
  unfold repl
  rw [h]

/-- Witness for C8: two records differing only in port history give the same
reply to a concrete SYN segment. -/
theorem repl_deterministic_witness :
    updatePorts cCI cReqSyn = updatePorts cCIports cReqSyn ∧
    repl cGen cProtoNone cReqSyn cMass cCI
      = repl cGen cProtoNone cReqSyn cMass cCIports :=
  ⟨by decide,
   repl_deterministic cGen cProtoNone cReqSyn cMass cCI cCIports (by decide)⟩

/-- C9: in the handshake branch, a failure of token generation aborts the
processing of just this packet — repl returns the panic marker for the
failed unwrap, which the caller contains per packet — and no outbound
segment is produced. -/
theorem repl_handshake_generate_failure (generate : GenFun) (proto : ProtoFun)
    (tcp_req : TcpPacket) (m : Masscanned) (ci : ClientInfo) (e : Unit)
    (h1 : tcp_req.flags &&& (TcpFlags.PSH ||| TcpFlags.ACK)
      ≠ TcpFlags.PSH ||| TcpFlags.ACK)
    (h2 : tcp_req.flags ≠ TcpFlags.ACK)
    (h3 : ¬(tcp_req.flags = TcpFlags.RST
      ∨ tcp_req.flags = TcpFlags.FIN ||| TcpFlags.ACK))
    (h4 : tcp_req.flags &&& TcpFlags.SYN = TcpFlags.SYN)
    (hg : generate (updatePorts ci tcp_req) m.synack_key = .error e) :
    repl generate proto tcp_req m ci = .error Panic.cookieUnwrap := by
  unfold repl replCore
  rw [if_neg h1, if_neg h2, if_neg h3, if_pos h4]
  simp only [hg]

/-- Witness for C9: a failing token service on a concrete SYN segment. -/
theorem repl_handshake_generate_failure_witness :
    repl cGenErr cProtoNone cReqSyn cMass cCI = .error Panic.cookieUnwrap :=
  repl_handshake_generate_failure cGenErr cProtoNone cReqSyn cMass cCI ()
    (by decide) (by decide) (by decide) (by decide) (by rfl)

/-- C2: for every inbound PSH+ACK segment whose recomputed token matches the
expected acknowledged value, repl returns some outbound segment: when the
dispatcher answers bytes, the payload is those bytes and the flags are
exactly ACK+PSH; when it answers nothing, the payload is empty and the
flags are exactly ACK; in both cases the acknowledgement number is the
inbound sequence number plus the inbound payload length modulo 2^32, and
the sequence number is the inbound acknowledgement number. -/
theorem repl_data_accept (generate : GenFun) (proto : ProtoFun)
    (tcp_req : TcpPacket) (m : Masscanned) (ci : ClientInfo) (cookie : Nat)
    (r : Option (List Nat)) (ci3 : ClientInfo) (s d : Nat)
    (hflags : tcp_req.flags &&& (TcpFlags.PSH ||| TcpFlags.ACK)
      = TcpFlags.PSH ||| TcpFlags.ACK)
    (hg : generate (updatePorts ci tcp_req) m.synack_key = .ok cookie)
    (hok : cookie = expectedAckno tcp_req)
    (hp : proto tcp_req.payload m
      { updatePorts ci tcp_req with cookie := some cookie } = (r, ci3))
    (hs : ci3.port.src = some s) (hd : ci3.port.dst = some d) :
    ∃ out, repl generate proto tcp_req m ci = .ok (some out, ci3) ∧
      (∀ bytes, r = some bytes →
        out.payload = bytes ∧ out.flags = TcpFlags.ACK ||| TcpFlags.PSH) ∧
      (r = none → out.payload = [] ∧ out.flags = TcpFlags.ACK) ∧
      out.acknowledgement = (tcp_req.sequence + tcp_req.payload.length) % U32 ∧
      out.sequence = tcp_req.acknowledgement := by
  unfold repl replCore
  rw [if_pos hflags]
  simp only [hg, if_neg (not_not_intro hok)]
  rw [hp]
  rcases r with _ | bytes
  · simp only [finalize, hd, hs]
    refine ⟨_, rfl, ?_, ?_, rfl, rfl⟩
    · intro bytes hb
      cases hb
    · intro _
      exact ⟨rfl, rfl⟩
  · simp only [finalize, hd, hs]
    refine ⟨_, rfl, ?_, ?_, rfl, rfl⟩
    · intro bytes2 hb
      cases hb
      exact ⟨rfl, rfl⟩
    · intro hh
      cases hh

/-- Witness for C2: a concrete verified PSH+ACK segment with an echoing
dispatcher yields an ACK+PSH reply carrying the echoed bytes. -/
theorem repl_data_accept_witness :
    ∃ out, repl cGen cProtoEcho cReqData cMass cCI
        = .ok (some out, { updatePorts cCI cReqData with cookie := some 1000 }) ∧
      out.payload = [7, 8] ∧ out.flags = TcpFlags.ACK ||| TcpFlags.PSH := by
  obtain ⟨out, h1, h2, -, -, -⟩ :=
    repl_data_accept cGen cProtoEcho cReqData cMass cCI 1000 (some [7, 8])
      { updatePorts cCI cReqData with cookie := some 1000 } 65000 80
      (by decide) rfl (by decide) rfl rfl rfl
  exact ⟨out, h1, (h2 [7, 8] rfl).1, (h2 [7, 8] rfl).2⟩

/-- C10: in the data branch, when token generation itself fails, repl skips
verification entirely: nothing is rejected, the record handed to the
dispatcher keeps the caller's cookie field (none stored), and the reply is
assembled exactly as for a verified segment. -/
theorem repl_data_generate_failure (generate : GenFun) (proto : ProtoFun)
    (tcp_req : TcpPacket) (m : Masscanned) (ci : ClientInfo) (e : Unit)
    (r : Option (List Nat)) (ci3 : ClientInfo) (s d : Nat)
    (hflags : tcp_req.flags &&& (TcpFlags.PSH ||| TcpFlags.ACK)
      = TcpFlags.PSH ||| TcpFlags.ACK)
    (hg : generate (updatePorts ci tcp_req) m.synack_key = .error e)
    (hp : proto tcp_req.payload m (updatePorts ci tcp_req) = (r, ci3))
    (hs : ci3.port.src = some s) (hd : ci3.port.dst = some d) :
    ∃ out, repl generate proto tcp_req m ci = .ok (some out, ci3) ∧
      (updatePorts ci tcp_req).cookie = ci.cookie ∧
      (∀ bytes, r = some bytes →
        out.payload = bytes ∧ out.flags = TcpFlags.ACK ||| TcpFlags.PSH) ∧
      (r = none → out.payload = [] ∧ out.flags = TcpFlags.ACK) ∧
      out.acknowledgement = (tcp_req.sequence + tcp_req.payload.length) % U32 ∧
      out.sequence = tcp_req.acknowledgement := by
  unfold repl replCore
  rw [if_pos hflags]
  simp only [hg]
  rw [hp]
  rcases r with _ | bytes
  · simp only [finalize, hd, hs]
    refine ⟨_, rfl, rfl, ?_, ?_, rfl, rfl⟩
    · intro bytes hb
      cases hb
    · intro _
      exact ⟨rfl, rfl⟩
  · simp only [finalize, hd, hs]
    refine ⟨_, rfl, rfl, ?_, ?_, rfl, rfl⟩
    · intro bytes2 hb
      cases hb
      exact ⟨rfl, rfl⟩
    · intro hh
      cases hh

/-- Witness for C10: a failing token service on a concrete PSH+ACK segment
still produces a bare-ACK reply through the silent dispatcher. -/
theorem repl_data_generate_failure_witness :
    ∃ out, repl cGenErr cProtoNone cReqDataRej cMass cCI
        = .ok (some out, updatePorts cCI cReqDataRej) ∧
      out.payload = [] ∧ out.flags = TcpFlags.ACK := by
  obtain ⟨out, h1, -, -, h4, -, -⟩ :=
    repl_data_generate_failure cGenErr cProtoNone cReqDataRej cMass cCI ()
      none (updatePorts cCI cReqDataRej) 65000 80
      (by decide) rfl rfl rfl rfl
  exact ⟨out, h1, (h4 rfl).1, (h4 rfl).2⟩

/-- Counterexample for C5: the segment with flags RST+SYN has RST set and
PSH+ACK not both set, yet repl produces an outbound SYN+ACK segment — the
RST and FIN+ACK tests in the source compare the whole flag field for
equality, so extra bits fall through to the SYN branch. -/
theorem repl_rst_bits_reply_counterexample :
    cReqRstSyn.flags &&& TcpFlags.RST = TcpFlags.RST ∧
    cReqRstSyn.flags &&& (TcpFlags.PSH ||| TcpFlags.ACK)
      ≠ TcpFlags.PSH ||| TcpFlags.ACK ∧
    repl cGen cProtoNone cReqRstSyn cMass cCI
      ≠ .ok (none, updatePorts cCI cReqRstSyn) ∧
    repl cGen cProtoNone cReqRstSyn cMass cCI
      = .ok (some { source := 80, destination := 65000, sequence := 1000,
                    acknowledgement := 8, data_offset := 5,
                    flags := TcpFlags.SYN ||| TcpFlags.ACK,
                    window := 65535, payload := [] },
             updatePorts cCI cReqRstSyn) := by
  refine ⟨by decide, by decide, ?_, by rfl⟩
  intro h
  rw [show repl cGen cProtoNone cReqRstSyn cMass cCI
      = .ok (some { source := 80, destination := 65000, sequence := 1000,
                    acknowledgement := 8, data_offset := 5,
                    flags := TcpFlags.SYN ||| TcpFlags.ACK,
                    window := 65535, payload := [] },
             updatePorts cCI cReqRstSyn) from rfl] at h
  simp at h

/-- C5 amended: an inbound segment whose flags are exactly ACK, exactly RST,
or exactly FIN+ACK gets no reply and no error; with other bits added the
segment falls through to the later branches instead. -/
theorem repl_exact_teardown_no_reply (generate : GenFun) (proto : ProtoFun)
    (tcp_req : TcpPacket) (m : Masscanned) (ci : ClientInfo)
    (h : tcp_req.flags = TcpFlags.ACK ∨ tcp_req.flags = TcpFlags.RST
      ∨ tcp_req.flags = TcpFlags.FIN ||| TcpFlags.ACK) :
    repl generate proto tcp_req m ci = .ok (none, updatePorts ci tcp_req) := by
  unfold repl replCore
  rcases h with h | h | h
  · rw [if_neg (by rw [h]; decide), if_pos h]
  · rw [if_neg (by rw [h]; decide), if_neg (by rw [h]; decide),
      if_pos (Or.inl h)]
  · rw [if_neg (by rw [h]; decide), if_neg (by rw [h]; decide),
      if_pos (Or.inr h)]

/-- Witness for the amended C5: a concrete segment with flags exactly RST is
silently dropped. -/
theorem repl_exact_teardown_no_reply_witness :
    repl cGen cProtoNone { cReqRstSyn with flags := TcpFlags.RST } cMass cCI
      = .ok (none, updatePorts cCI { cReqRstSyn with flags := TcpFlags.RST }) :=
  repl_exact_teardown_no_reply cGen cProtoNone
    { cReqRstSyn with flags := TcpFlags.RST } cMass cCI (Or.inr (Or.inl rfl))

/-- C6: every outbound segment repl produces has, at return, source port
equal to the record's destination port and destination port equal to the
record's source port (both read from the record as it stands after any
upper-layer mutation), data offset 5, window 65535, and a flag field that
is exactly the set one branch assigned — SYN+ACK, ACK+PSH or ACK — with no
leftover bits from the zeroed buffer. -/
theorem repl_finalization_invariant (generate : GenFun) (proto : ProtoFun)
    (tcp_req : TcpPacket) (m : Masscanned) (ci ciOut : ClientInfo)
    (out : TcpPacket)
    (h : repl generate proto tcp_req m ci = .ok (some out, ciOut)) :
    out.data_offset = 5 ∧ out.window = 65535 ∧
    ciOut.port.dst = some out.source ∧ ciOut.port.src = some out.destination ∧
    (out.flags = TcpFlags.SYN ||| TcpFlags.ACK
      ∨ out.flags = TcpFlags.ACK ||| TcpFlags.PSH
      ∨ out.flags = TcpFlags.ACK) := by
  simp only [repl, replCore, finalize] at h
  repeat' split at h
  any_goals simp_all
  all_goals obtain ⟨h1, h2⟩ := h
  all_goals subst h1
  all_goals subst h2
  all_goals refine ⟨rfl, rfl, ?_, ?_, ?_⟩
  all_goals try rfl
  all_goals
    first
      | exact Or.inl rfl
      | exact Or.inr (Or.inl rfl)
      | exact Or.inr (Or.inr rfl)

/-- Witness for C6: the invariant read off the concrete SYN-ACK reply. -/
theorem repl_finalization_invariant_witness :
    ∃ out ciOut, repl cGen cProtoNone cReqSyn cMass cCI = .ok (some out, ciOut) ∧
      out.data_offset = 5 ∧ out.window = 65535 ∧
      ciOut.port.dst = some out.source ∧
      ciOut.port.src = some out.destination := by
  have h1 : repl cGen cProtoNone cReqSyn cMass cCI
      = .ok (some { source := 80, destination := 65000, sequence := 1000,
                    acknowledgement := 501, data_offset := 5,
                    flags := TcpFlags.SYN ||| TcpFlags.ACK, window := 65535,
                    payload := [] }, updatePorts cCI cReqSyn) := by rfl
  obtain ⟨w1, w2, w3, w4, -⟩ :=
    repl_finalization_invariant cGen cProtoNone cReqSyn cMass cCI
      (updatePorts cCI cReqSyn) _ h1
  exact ⟨_, _, h1, w1, w2, w3, w4⟩

/-- Helper: whenever finalization succeeds it returns the record it was
given, unchanged. -/
lemma finalize_record (ci : ClientInfo) (t : TcpPacket) (res : Option TcpPacket)
    (ciOut : ClientInfo) (h : finalize ci t = .ok (res, ciOut)) : ciOut = ci := by
  unfold finalize at h
  repeat' split at h
  all_goals simp_all

/-- C7: on every invocation and every branch, the record's ports are
overwritten from the inbound segment before the token service or the
dispatcher is consulted — so the record's previous port content never
influences the result — and the record repl hands back is either the
port-updated input record itself (cookie untouched, in particular on every
rejected segment), or whatever the dispatcher made of that record, where
the record given to the dispatcher carries the verified token exactly when
one was verified. -/
theorem repl_frame_effect (generate : GenFun) (proto : ProtoFun)
    (tcp_req : TcpPacket) (m : Masscanned) (ci : ClientInfo) :
    (∀ p, repl generate proto tcp_req m { ci with port := p }
      = repl generate proto tcp_req m ci) ∧
    (∀ res ciOut, repl generate proto tcp_req m ci = .ok (res, ciOut) →
      ciOut = updatePorts ci tcp_req ∨
      ∃ r ci2, (ci2 = updatePorts ci tcp_req ∨
          ci2 = { updatePorts ci tcp_req with
                    cookie := some (expectedAckno tcp_req) }) ∧
        proto tcp_req.payload m ci2 = (r, ciOut)) := by
  constructor
  · intro p
    rfl
  · intro res ciOut h
    unfold repl replCore at h
    by_cases c1 : tcp_req.flags &&& (TcpFlags.PSH ||| TcpFlags.ACK)
        = TcpFlags.PSH ||| TcpFlags.ACK
    · rw [if_pos c1] at h
      cases hG : generate (updatePorts ci tcp_req) m.synack_key with
      | ok cookie =>
        simp only [hG] at h
        by_cases c2 : cookie = expectedAckno tcp_req
        · rw [if_neg (not_not_intro c2)] at h
          dsimp only at h
          rcases hP : proto tcp_req.payload m
              { updatePorts ci tcp_req with cookie := some cookie }
            with ⟨r, ci3⟩
          dsimp only at hP
          rw [hP] at h
          rcases r with _ | bytes
          · try dsimp only at h
            right
            refine ⟨none, { updatePorts ci tcp_req with cookie := some cookie },
              Or.inr (by rw [c2]), ?_⟩
            rw [finalize_record _ _ _ _ h]
            exact hP
          · try dsimp only at h
            right
            refine ⟨some bytes,
              { updatePorts ci tcp_req with cookie := some cookie },
              Or.inr (by rw [c2]), ?_⟩
            rw [finalize_record _ _ _ _ h]
            exact hP
        · rw [if_pos c2] at h
          simp only [Except.ok.injEq, Prod.mk.injEq] at h
          exact Or.inl h.2.symm
      | error e =>
        simp only [hG] at h
        try dsimp only at h
        rcases hP : proto tcp_req.payload m (updatePorts ci tcp_req)
          with ⟨r, ci3⟩
        rw [hP] at h
        rcases r with _ | bytes
        · try dsimp only at h
          right
          refine ⟨none, updatePorts ci tcp_req, Or.inl rfl, ?_⟩
          rw [finalize_record _ _ _ _ h]
          exact hP
        · try dsimp only at h
          right
          refine ⟨some bytes, updatePorts ci tcp_req, Or.inl rfl, ?_⟩
          rw [finalize_record _ _ _ _ h]
          exact hP
    · rw [if_neg c1] at h
      by_cases c2 : tcp_req.flags = TcpFlags.ACK
      · rw [if_pos c2] at h
        simp only [Except.ok.injEq, Prod.mk.injEq] at h
        exact Or.inl h.2.symm
      · rw [if_neg c2] at h
        by_cases c3 : tcp_req.flags = TcpFlags.RST
            ∨ tcp_req.flags = TcpFlags.FIN ||| TcpFlags.ACK
        · rw [if_pos c3] at h
          simp only [Except.ok.injEq, Prod.mk.injEq] at h
          exact Or.inl h.2.symm
        · rw [if_neg c3] at h
          by_cases c4 : tcp_req.flags &&& TcpFlags.SYN = TcpFlags.SYN
          · rw [if_pos c4] at h
            cases hG : generate (updatePorts ci tcp_req) m.synack_key with
            | ok cookie =>
              simp only [hG] at h
              exact Or.inl (finalize_record _ _ _ _ h)
            | error e =>
              simp only [hG] at h
              exact Except.noConfusion h
          · rw [if_neg c4] at h
            simp only [Except.ok.injEq, Prod.mk.injEq] at h
            exact Or.inl h.2.symm

/-- Witness for C7: its two parts evaluated on the concrete rejected PSH+ACK
segment: port history does not change the outcome, and the record comes
back port-updated with the cookie untouched. -/
theorem repl_frame_effect_witness :
    repl cGen cProtoNone cReqDataRej cMass
        { cCI with port := { src := some 4242, dst := some 2424 } }
      = repl cGen cProtoNone cReqDataRej cMass cCI ∧
    (updatePorts cCI cReqDataRej = updatePorts cCI cReqDataRej ∨
      ∃ r ci2, (ci2 = updatePorts cCI cReqDataRej ∨
          ci2 = { updatePorts cCI cReqDataRej with
                    cookie := some (expectedAckno cReqDataRej) }) ∧
        cProtoNone cReqDataRej.payload cMass ci2 = (r, updatePorts cCI cReqDataRej)) :=
  ⟨(repl_frame_effect cGen cProtoNone cReqDataRej cMass cCI).1
      { src := some 4242, dst := some 2424 },
   (repl_frame_effect cGen cProtoNone cReqDataRej cMass cCI).2
      none (updatePorts cCI cReqDataRej) (by rfl)⟩
